import Mathlib

/-
Verification of the MCP GraphQL bridge server.

The repository has two entry points:
- mcp-graphql-server-1/src/mcpServer.js (entry point 1), and
- mcpServer_publicAPI.js (entry point 2).
Both register an introspect-schema tool and a query-graphql tool on an MCP
server over a single fixed upstream GraphQL endpoint, share a process-wide
single-slot schema cache (cachedSchema), a session map (sessions) and a
session counter (sessionCounter).  Entry point 2 additionally intercepts
every tools/call request naming query-graphql in a manual branch of the
POST /mcp route, before the SDK dispatcher can run.

The upstream GraphQL client (the request function of graphql-request) is
modelled as an exogenous outcome of type Except String Json: Except.ok d is
a successful call returning data d, Except.error m a call that threw an
error whose message is m.  Each handler additionally reports the list of
upstream calls it issued, so that call counts and pass-through of arguments
are provable.
-/

/- Decimal rendering of natural numbers, modelling the number-to-string
conversion performed by the JavaScript template literal in
generateSessionId. -/

def digitChar (d : Nat) : Char :=
  if d = 0 then '0' else if d = 1 then '1' else if d = 2 then '2' else if d = 3 then '3'
  else if d = 4 then '4' else if d = 5 then '5' else if d = 6 then '6' else if d = 7 then '7'
  else if d = 8 then '8' else if d = 9 then '9' else '*'

def digitVal (c : Char) : Nat :=
  if c = '0' then 0 else if c = '1' then 1 else if c = '2' then 2 else if c = '3' then 3
  else if c = '4' then 4 else if c = '5' then 5 else if c = '6' then 6 else if c = '7' then 7
  else if c = '8' then 8 else if c = '9' then 9 else 0

def decDigitsAux : Nat → Nat → List Char
  | _, 0 => []
  | 0, _+1 => []
  | f+1, n+1 => decDigitsAux f ((n+1) / 10) ++ [digitChar ((n+1) % 10)]

def natToDec (n : Nat) : String :=
  if n = 0 then "0" else String.mk (decDigitsAux n n)

def decValue : List Char → Nat
  | [] => 0
  | c :: cs => digitVal c * 10 ^ cs.length + decValue cs

def intToDec (n : Int) : String :=
  if n < 0 then "-" ++ natToDec (-n).toNat else natToDec n.toNat

/- JSON values, as produced and consumed by the handlers.  The array and
object spines are their own inductives so that the serializer below is
structurally recursive and kernel-reducible. -/

mutual
inductive Json where
  | null
  | bool (b : Bool)
  | num (n : Int)
  | str (s : String)
  | arr (xs : JsonArr)
  | obj (fs : JsonObj)
inductive JsonArr where
  | nil
  | cons (hd : Json) (tl : JsonArr)
inductive JsonObj where
  | nil
  | cons (k : String) (v : Json) (tl : JsonObj)
end

/- JSON.stringify with no indentation, as called in every handler. -/

def escapeChar (c : Char) : String :=
  if c = '"' then "\\\"" else if c = '\\' then "\\\\"
  else if c = '\n' then "\\n" else if c = '\r' then "\\r" else if c = '\t' then "\\t"
  else String.singleton c

def escapeString (s : String) : String :=
  String.join (s.data.map escapeChar)

def quoteString (s : String) : String :=
  "\"" ++ escapeString s ++ "\""

mutual
def Json.serialize : Json → String
  | .null => "null"
  | .bool true => "true"
  | .bool false => "false"
  | .num n => intToDec n
  | .str s => quoteString s
  | .arr xs => "[" ++ JsonArr.serialize xs ++ "]"
  | .obj fs => "\x7b" ++ JsonObj.serialize fs ++ "\x7d"
def JsonArr.serialize : JsonArr → String
  | .nil => ""
  | .cons x .nil => x.serialize
  | .cons x (.cons y tl) => x.serialize ++ "," ++ JsonArr.serialize (.cons y tl)
def JsonObj.serialize : JsonObj → String
  | .nil => ""
  | .cons k v .nil => quoteString k ++ ":" ++ v.serialize
  | .cons k v (.cons k2 v2 tl) =>
      quoteString k ++ ":" ++ v.serialize ++ "," ++ JsonObj.serialize (.cons k2 v2 tl)
end

/- GraphQL selection sets, used to transcribe the INTROSPECTION_QUERY
document (identical text in both entry points).  A selection is either a
field (name, arguments, subselections) or a fragment spread.  The selection
list is its own inductive for the same kernel-reducibility reason as the
JSON spines. -/

mutual
inductive Sel where
  | field (name : String) (args : List (String × String)) (sub : SelList)
  | frag (name : String)
inductive SelList where
  | nil
  | cons (hd : Sel) (tl : SelList)
end

def SelList.ofList : List Sel → SelList
  | [] => .nil
  | s :: rest => .cons s (SelList.ofList rest)

def fld (name : String) (sub : List Sel) : Sel :=
  Sel.field name [] (SelList.ofList sub)

def fldArgs (name : String) (args : List (String × String)) (sub : List Sel) : Sel :=
  Sel.field name args (SelList.ofList sub)

/- Depth of the deepest nesting of fields named ofType, and total number of
fields named ofType, inside a selection set. -/

mutual
def Sel.ofTypeDepth : Sel → Nat
  | .field name _ sub =>
      if name = "ofType" then 1 + SelList.ofTypeDepth sub else SelList.ofTypeDepth sub
  | .frag _ => 0
def SelList.ofTypeDepth : SelList → Nat
  | .nil => 0
  | .cons s tl => max (Sel.ofTypeDepth s) (SelList.ofTypeDepth tl)
end

mutual
def Sel.ofTypeCount : Sel → Nat
  | .field name _ sub =>
      (if name = "ofType" then 1 else 0) + SelList.ofTypeCount sub
  | .frag _ => 0
def SelList.ofTypeCount : SelList → Nat
  | .nil => 0
  | .cons s tl => Sel.ofTypeCount s + SelList.ofTypeCount tl
end

/- The TypeRef fragment of INTROSPECTION_QUERY, transcribed from the source
(lines 68-96 of both files): kind and name, then ofType wrappers, each
level again selecting kind and name. -/

def typeRefSelections : SelList :=
  SelList.ofList
    [fld "kind" [], fld "name" [],
     fld "ofType"
       [fld "kind" [], fld "name" [],
        fld "ofType"
          [fld "kind" [], fld "name" [],
           fld "ofType"
             [fld "kind" [], fld "name" [],
              fld "ofType"
                [fld "kind" [], fld "name" [],
                 fld "ofType"
                   [fld "kind" [], fld "name" [],
                    fld "ofType"
                      [fld "kind" [], fld "name" []]]]]]]]

/- The InputValue fragment of INTROSPECTION_QUERY. -/

def inputValueSelections : SelList :=
  SelList.ofList
    [fld "name" [], fld "description" [],
     fld "type" [Sel.frag "TypeRef"],
     fld "defaultValue" []]

/- The FullType fragment of INTROSPECTION_QUERY. -/

def fullTypeSelections : SelList :=
  SelList.ofList
    [fld "kind" [], fld "name" [], fld "description" [],
     fldArgs "fields" [("includeDeprecated", "true")]
       [fld "name" [], fld "description" [],
        fld "args" [Sel.frag "InputValue"],
        fld "type" [Sel.frag "TypeRef"],
        fld "isDeprecated" [], fld "deprecationReason" []],
     fld "inputFields" [Sel.frag "InputValue"],
     fld "interfaces" [Sel.frag "TypeRef"],
     fldArgs "enumValues" [("includeDeprecated", "true")]
       [fld "name" [], fld "description" [],
        fld "isDeprecated" [], fld "deprecationReason" []],
     fld "possibleTypes" [Sel.frag "TypeRef"]]

/- The selection set of the IntrospectionQuery operation itself. -/

def introspectionOperationSelections : SelList :=
  SelList.ofList
    [fld "__schema"
       [fld "queryType" [fld "name" []],
        fld "mutationType" [fld "name" []],
        fld "subscriptionType" [fld "name" []],
        fld "types" [Sel.frag "FullType"],
        fld "directives"
          [fld "name" [], fld "description" [], fld "locations" [],
           fld "args" [Sel.frag "InputValue"]]]]

structure GqlFragment where
  name : String
  typeCondition : String
  selections : SelList

structure GqlDocument where
  operationName : String
  selections : SelList
  fragments : List GqlFragment

/- INTROSPECTION_QUERY, the fixed introspection document (identical in both
entry points). -/

def INTROSPECTION_QUERY : GqlDocument :=
  { operationName := "IntrospectionQuery"
    selections := introspectionOperationSelections
    fragments :=
      [{ name := "FullType", typeCondition := "__Type", selections := fullTypeSelections },
       { name := "InputValue", typeCondition := "__InputValue", selections := inputValueSelections },
       { name := "TypeRef", typeCondition := "__Type", selections := typeRefSelections }] }

/- Server data model. -/

def GRAPHQL_ENDPOINT : String := "https://countries.trevorblades.com/"

structure ContentBlock where
  type : String
  text : String
deriving DecidableEq

structure ToolResponse where
  content : List ContentBlock
deriving DecidableEq

/- The JSON-RPC envelope produced by the manual query-graphql branch of
entry point 2 (res.json of result, jsonrpc and id). -/

structure RpcEnvelope where
  result : ToolResponse
  jsonrpc : String
  id : Json

structure Session where
  id : String
  created : Nat

structure ServerState where
  cachedSchema : Option Json
  sessions : List (String × Session)
  sessionCounter : Nat

/- A call issued to the upstream client by a query-graphql path:
request(GRAPHQL_ENDPOINT, query, vars). -/

structure QueryCall where
  endpoint : String
  query : String
  vars : Option JsonObj

/- A call issued to the upstream client by introspect-schema:
request(GRAPHQL_ENDPOINT, INTROSPECTION_QUERY). -/

structure IntrospectionCall where
  endpoint : String
  document : GqlDocument

/- Session identifier generation: session-${++sessionCounter}. -/

def sessionIdOf (n : Nat) : String :=
  "session-" ++ natToDec n

def generateSessionId (sessionCounter : Nat) : String × Nat :=
  (sessionIdOf (sessionCounter + 1), sessionCounter + 1)

/- JavaScript Map operations on the sessions map, keyed by session id.
Map.set overwrites in place when the key is present and appends otherwise;
Map.delete removes the key and is silent when it is absent. -/

def mapSet (k : String) (v : Session) (m : List (String × Session)) :
    List (String × Session) :=
  if m.any (fun p => p.1 == k) then
    m.map (fun p => if p.1 == k then (k, v) else p)
  else m ++ [(k, v)]

def mapDelete (k : String) (m : List (String × Session)) :
    List (String × Session) :=
  m.filter (fun p => p.1 != k)

/- sessionManager.createSession: builds the session record with the current
time and stores it under its id. -/

def createSession (sessionId : String) (now : Nat) (st : ServerState) :
    Session × ServerState :=
  (⟨sessionId, now⟩, { st with sessions := mapSet sessionId ⟨sessionId, now⟩ st.sessions })

/- sessionManager.deleteSession: sessions.delete(sessionId). -/

def deleteSession (sessionId : String) (st : ServerState) : ServerState :=
  { st with sessions := mapDelete sessionId st.sessions }

/- A fresh session as produced by the transport: sessionIdGenerator
(advancing the counter) followed by createSession. -/

def newSession (now : Nat) (st : ServerState) : Session × ServerState :=
  createSession (generateSessionId st.sessionCounter).1 now
    { st with sessionCounter := (generateSessionId st.sessionCounter).2 }

/- The introspect-schema handler (identical in both entry points).  It
always issues exactly one upstream call carrying INTROSPECTION_QUERY.  On
success it stores the result in cachedSchema and returns one text block
holding JSON.stringify(schema); on error it returns one text block holding
JSON.stringify of an object with error and details, leaving the state
untouched. -/

def introspectSchema (upstream : Except String Json) (st : ServerState) :
    ToolResponse × ServerState × List IntrospectionCall :=
  match upstream with
  | .ok schema =>
      (⟨[⟨"text", schema.serialize⟩]⟩,
       { st with cachedSchema := some schema },
       [⟨GRAPHQL_ENDPOINT, INTROSPECTION_QUERY⟩])
  | .error msg =>
      (⟨[⟨"text", (Json.obj (.cons "error" (.str "Failed to introspect schema")
            (.cons "details" (.str msg) .nil))).serialize⟩]⟩,
       st,
       [⟨GRAPHQL_ENDPOINT, INTROSPECTION_QUERY⟩])

/- The registered query-graphql handler (entry point 1 lines 148-192; the
handler registered in entry point 2 behaves identically after extracting
query and vars from its args object).  With an empty cache it returns
the fixed failure without calling upstream; otherwise it forwards query and
vars to the upstream client and wraps the outcome. -/

def queryGraphql (upstream : Except String Json) (query : String)
    (vars : Option JsonObj) (st : ServerState) :
    ToolResponse × ServerState × List QueryCall :=
  match st.cachedSchema with
  | none =>
      (⟨[⟨"text", (Json.obj (.cons "error"
            (.str "Schema not available. Please run introspect-schema first.") .nil)).serialize⟩]⟩,
       st, [])
  | some _ =>
      match upstream with
      | .ok data =>
          (⟨[⟨"text", (Json.obj (.cons "data" data .nil)).serialize⟩]⟩,
           st, [⟨GRAPHQL_ENDPOINT, query, vars⟩])
      | .error msg =>
          (⟨[⟨"text", (Json.obj (.cons "error" (.str "Failed to execute GraphQL query")
                (.cons "details" (.str msg) .nil))).serialize⟩]⟩,
           st, [⟨GRAPHQL_ENDPOINT, query, vars⟩])

/- The manual query-graphql branch of entry point 2 (mcpServer_publicAPI.js
lines 199-255).  It intercepts every tools/call request naming
query-graphql before the SDK dispatcher, never consults cachedSchema, and
always issues the upstream call.  On success the payload text is
JSON.stringify(data) with no wrapper; on error it is JSON.stringify of an
object with error and details. -/

def manualQueryGraphql (upstream : Except String Json) (query : String)
    (vars : Option JsonObj) (rpcId : Json) (st : ServerState) :
    RpcEnvelope × ServerState × List QueryCall :=
  match upstream with
  | .ok data =>
      (⟨⟨[⟨"text", data.serialize⟩]⟩, "2.0", rpcId⟩,
       st, [⟨GRAPHQL_ENDPOINT, query, vars⟩])
  | .error msg =>
      (⟨⟨[⟨"text", (Json.obj (.cons "error" (.str "Failed to execute GraphQL query")
            (.cons "details" (.str msg) .nil))).serialize⟩]⟩, "2.0", rpcId⟩,
       st, [⟨GRAPHQL_ENDPOINT, query, vars⟩])

/- Tool dispatch over the two registered tools. -/

inductive ToolCall where
  | introspect
  | query (q : String) (v : Option JsonObj)

def dispatchTool (tc : ToolCall) (upstream : Except String Json) (st : ServerState) :
    ToolResponse × ServerState :=
  match tc with
  | .introspect =>
      ((introspectSchema upstream st).1, (introspectSchema upstream st).2.1)
  | .query q v =>
      ((queryGraphql upstream q v st).1, (queryGraphql upstream q v st).2.1)

/- Sequences of session operations against the registry: a creation (with
the current time) or a deletion of a given id.  runOps returns the final
state and the list of identifiers generated by the creations, in order. -/

inductive SessionOp where
  | create (now : Nat)
  | delete (id : String)

def runOps : List SessionOp → ServerState → ServerState × List String
  | [], st => (st, [])
  | SessionOp.create now :: rest, st =>
      ((runOps rest (newSession now st).2).1,
       (newSession now st).1.id :: (runOps rest (newSession now st).2).2)
  | SessionOp.delete i :: rest, st =>
      runOps rest (deleteSession i st)

/- Pure iteration of generateSessionId: the list of the first k identifiers
generated starting from a given counter value. -/

def genIds : Nat → Nat → List String
  | _, 0 => []
  | c, k+1 => (generateSessionId c).1 :: genIds (generateSessionId c).2 k

/- Concrete states used by witnesses and counterexamples. -/

def st0 : ServerState :=
  { cachedSchema := none, sessions := [], sessionCounter := 0 }

def schemaEx : Json :=
  Json.obj (.cons "__schema" (Json.obj .nil) .nil)

def stCached : ServerState :=
  { cachedSchema := some schemaEx, sessions := [], sessionCounter := 0 }

def stOneSession : ServerState :=
  { cachedSchema := none,
    sessions := [("session-1", ⟨"session-1", 5⟩)],
    sessionCounter := 1 }

/- Helper lemmas. -/

theorem digitVal_digitChar (d : Nat) (h : d < 10) : digitVal (digitChar d) = d := by
  interval_cases d <;> rfl

theorem decValue_append_single (xs : List Char) (c : Char) :
    decValue (xs ++ [c]) = 10 * decValue xs + digitVal c := by
  induction xs with
  | nil => simp [decValue]
  | cons a as ih =>
      simp only [List.cons_append, decValue, List.append_eq, ih, List.length_append,
        List.length_cons, List.length_nil, pow_succ]
      ring

theorem decValue_decDigitsAux (f : Nat) : ∀ n, n ≤ f → decValue (decDigitsAux f n) = n := by
  induction f with
  | zero => intro n hn; interval_cases n; rfl
  | succ f ih =>
      intro n hn
      match n with
      | 0 => rfl
      | m+1 =>
          have hdiv : (m+1) / 10 ≤ f := by
            have := Nat.div_lt_self (Nat.succ_pos m) (by norm_num : 1 < 10)
            omega
          rw [decDigitsAux, decValue_append_single, ih _ hdiv,
            digitVal_digitChar _ (Nat.mod_lt _ (by norm_num))]
          omega

theorem decValue_natToDec (n : Nat) : decValue (natToDec n).data = n := by
  match n with
  | 0 => rfl
  | m+1 =>
      have e : natToDec (m+1) = String.mk (decDigitsAux (m+1) (m+1)) := by
        simp [natToDec]
      rw [e]
      exact decValue_decDigitsAux (m+1) (m+1) le_rfl

theorem natToDec_injective : Function.Injective natToDec := by
  intro a b h
  rw [← decValue_natToDec a, ← decValue_natToDec b, h]

theorem str_append_cancel_left (p s t : String) (h : p ++ s = p ++ t) : s = t := by
  have h2 := congrArg String.data h
  simp only [String.data_append] at h2
  exact String.ext (List.append_cancel_left h2)

theorem sessionIdOf_injective : Function.Injective sessionIdOf := by
  intro a b h
  exact natToDec_injective (str_append_cancel_left "session-" _ _ h)

theorem genIds_closed : ∀ (k c : Nat),
    genIds c k = (List.range k).map (fun i => sessionIdOf (c + i + 1)) := by
  intro k
  induction k with
  | zero => intro c; rfl
  | succ k ih =>
      intro c
      show sessionIdOf (c + 1) :: genIds (c + 1) k = _
      rw [List.range_succ_eq_map, List.map_cons, List.map_map, ih (c + 1)]
      refine congrArg₂ _ (congrArg sessionIdOf (by omega)) (congrArg₂ _ ?_ rfl)
      funext i
      simp only [Function.comp_apply]
      exact congrArg sessionIdOf (by omega)

theorem newSession_counter (now : Nat) (st : ServerState) :
    (newSession now st).2.sessionCounter = st.sessionCounter + 1 := rfl

theorem newSession_id (now : Nat) (st : ServerState) :
    (newSession now st).1.id = sessionIdOf (st.sessionCounter + 1) := rfl

theorem runOps_ids_form : ∀ (ops : List SessionOp) (st : ServerState),
    ∀ id ∈ (runOps ops st).2, ∃ j, st.sessionCounter < j ∧ id = sessionIdOf j := by
  intro ops
  induction ops with
  | nil => intro st id hid; exact absurd hid (List.not_mem_nil id)
  | cons op rest ih =>
      intro st id hid
      cases op with
      | create now =>
          rw [runOps] at hid
          rcases List.mem_cons.mp hid with h | h
          · exact ⟨st.sessionCounter + 1, Nat.lt_succ_self _, by rw [h, newSession_id]⟩
          · obtain ⟨j, hj, hidj⟩ := ih (newSession now st).2 id h
            rw [newSession_counter] at hj
            exact ⟨j, by omega, hidj⟩
      | delete i =>
          rw [runOps] at hid
          obtain ⟨j, hj, hidj⟩ := ih (deleteSession i st) id hid
          exact ⟨j, hj, hidj⟩

/- Claim theorems. -/

/-- C1 counterexample: in entry point 2, a query-graphql invocation with an
empty Schema Cache goes through the manual branch, which issues one
upstream call (not zero) and does not return the schema-not-available
failure. -/
theorem c1_counterexample :
    ((manualQueryGraphql (Except.ok Json.null) "query Q" none Json.null st0).2.2).length = 1 ∧
    (manualQueryGraphql (Except.ok Json.null) "query Q" none Json.null st0).1.result.content ≠
      [⟨"text", (Json.obj (.cons "error"
        (.str "Schema not available. Please run introspect-schema first.") .nil)).serialize⟩] :=
  ⟨rfl, by decide⟩

/-- C1 amended: the SDK-registered query-graphql handler (the only
query-graphql path of entry point 1), invoked while the Schema Cache is
empty, returns exactly the failure with message
"Schema not available. Please run introspect-schema first.", leaves the
state unchanged and issues zero upstream calls; the manual branch of entry
point 2 intercepts query-graphql without consulting the cache and issues
the upstream call regardless. -/
theorem c1_schema_not_ready (up : Except String Json) (q : String)
    (v : Option JsonObj) (ss : List (String × Session)) (c : Nat) :
    queryGraphql up q v ⟨none, ss, c⟩ =
      (⟨[⟨"text", (Json.obj (.cons "error"
          (.str "Schema not available. Please run introspect-schema first.") .nil)).serialize⟩]⟩,
       ⟨none, ss, c⟩, []) := rfl

/-- C2 counterexample: a successful introspect-schema returns the
serialized schema itself as the payload text, which is not the serialized
form of a data-wrapped object. -/
theorem c2_counterexample :
    (introspectSchema (Except.ok schemaEx) st0).1.content = [⟨"text", schemaEx.serialize⟩] ∧
    schemaEx.serialize ≠ (Json.obj (.cons "data" schemaEx .nil)).serialize :=
  ⟨rfl, by decide⟩

/-- C2 amended: every tool result, on every path of both entry points, is a
list of exactly one content block of type text.  The text is the serialized
JSON of an object with data for a registered query-graphql success and of
an object with error and details for upstream failures; but a successful
introspect-schema serializes the schema itself with no data wrapper, the
schema-not-ready failure serializes an object with error only and no
details, and a manual-branch success in entry point 2 serializes the raw
upstream result with no data wrapper. -/
theorem c2_response_shapes (s : Json) (msg : String) (q : String) (v : Option JsonObj)
    (rpcId : Json) (s0 : Json) (ss : List (String × Session)) (c : Nat) (st : ServerState) :
    (introspectSchema (Except.ok s) st).1 = ⟨[⟨"text", s.serialize⟩]⟩ ∧
    (introspectSchema (Except.error msg) st).1 =
      ⟨[⟨"text", (Json.obj (.cons "error" (.str "Failed to introspect schema")
          (.cons "details" (.str msg) .nil))).serialize⟩]⟩ ∧
    (queryGraphql (Except.ok s) q v ⟨some s0, ss, c⟩).1 =
      ⟨[⟨"text", (Json.obj (.cons "data" s .nil)).serialize⟩]⟩ ∧
    (queryGraphql (Except.error msg) q v ⟨some s0, ss, c⟩).1 =
      ⟨[⟨"text", (Json.obj (.cons "error" (.str "Failed to execute GraphQL query")
          (.cons "details" (.str msg) .nil))).serialize⟩]⟩ ∧
    (queryGraphql (Except.ok s) q v ⟨none, ss, c⟩).1 =
      ⟨[⟨"text", (Json.obj (.cons "error"
          (.str "Schema not available. Please run introspect-schema first.") .nil)).serialize⟩]⟩ ∧
    (manualQueryGraphql (Except.ok s) q v rpcId st).1.result = ⟨[⟨"text", s.serialize⟩]⟩ ∧
    (manualQueryGraphql (Except.error msg) q v rpcId st).1.result =
      ⟨[⟨"text", (Json.obj (.cons "error" (.str "Failed to execute GraphQL query")
          (.cons "details" (.str msg) .nil))).serialize⟩]⟩ :=
  ⟨rfl, rfl, rfl, rfl, rfl, rfl, rfl⟩

/-- C3 counterexample: the TypeRef fragment of the fixed introspection
document does not nest ofType wrappers to depth 7. -/
theorem c3_counterexample : ¬ SelList.ofTypeDepth typeRefSelections = 7 := by decide

/-- C3 amended: the TypeRef fragment of INTROSPECTION_QUERY nests ofType
wrappers to depth exactly 6, with exactly 6 ofType fields in total. -/
theorem c3_typeref_depth :
    SelList.ofTypeDepth typeRefSelections = 6 ∧
    SelList.ofTypeCount typeRefSelections = 6 ∧
    INTROSPECTION_QUERY.fragments.map (fun fr => fr.name) =
      ["FullType", "InputValue", "TypeRef"] := by decide

/-- C4: an introspect-schema invocation whose upstream call fails returns
the failure with message "Failed to introspect schema" and the error detail,
and leaves the whole server state, in particular the Schema Cache, exactly
as it was (a previously cached schema stays, an empty cache stays empty). -/
theorem c4_introspect_failure_preserves_cache (msg : String) (st : ServerState) :
    (introspectSchema (Except.error msg) st).1 =
      ⟨[⟨"text", (Json.obj (.cons "error" (.str "Failed to introspect schema")
          (.cons "details" (.str msg) .nil))).serialize⟩]⟩ ∧
    (introspectSchema (Except.error msg) st).2.1 = st :=
  ⟨rfl, rfl⟩

/-- C5: with the Schema Cache populated, the registered query-graphql
handler issues exactly one upstream call carrying the given query string
and variables mapping unmodified, against the fixed endpoint, whatever the
upstream outcome; the manual branch of entry point 2 likewise forwards
query and variables unmodified to the fixed endpoint. -/
theorem c5_forwards_verbatim (up : Except String Json) (q : String) (v : Option JsonObj)
    (rpcId : Json) (s0 : Json) (ss : List (String × Session)) (c : Nat) (st : ServerState) :
    (queryGraphql up q v ⟨some s0, ss, c⟩).2.2 = [⟨GRAPHQL_ENDPOINT, q, v⟩] ∧
    (manualQueryGraphql up q v rpcId st).2.2 = [⟨GRAPHQL_ENDPOINT, q, v⟩] := by
  cases up <;> exact ⟨rfl, rfl⟩

/-- C6: a successful introspect-schema stores in the Schema Cache exactly
the value returned by the upstream client, unconditionally overwriting the
previous slot value and changing nothing else in the state. -/
theorem c6_cache_overwrite (s : Json) (st : ServerState) :
    (introspectSchema (Except.ok s) st).2.1 = { st with cachedSchema := some s } := rfl

/-- C7: over any sequence of session creations and deletions, the session
identifiers generated by the creations are pairwise distinct, including
when deletions occur between creations. -/
theorem c7_session_ids_pairwise_distinct (ops : List SessionOp) (st : ServerState) :
    ((runOps ops st).2).Nodup := by
  induction ops generalizing st with
  | nil => exact List.nodup_nil
  | cons op rest ih =>
      cases op with
      | create now =>
          rw [runOps]
          refine List.nodup_cons.mpr ⟨?_, ih _⟩
          intro hmem
          obtain ⟨j, hj, hidj⟩ := runOps_ids_form rest (newSession now st).2 _ hmem
          rw [newSession_counter] at hj
          rw [newSession_id] at hidj
          have := sessionIdOf_injective hidj
          omega
      | delete i =>
          rw [runOps]
          exact ih _

/-- C8: deleteSession is idempotent: deleting an id absent from the
registry returns the state unchanged, and deleting the same id twice gives
the same state as deleting it once. -/
theorem c8_deleteSession_idempotent (i : String) (st : ServerState) :
    ((∀ p ∈ st.sessions, p.1 ≠ i) → deleteSession i st = st) ∧
    deleteSession i (deleteSession i st) = deleteSession i st := by
  obtain ⟨cache, ss, c⟩ := st
  constructor
  · intro h
    simp only [deleteSession, mapDelete]
    have hf : ss.filter (fun p => p.1 != i) = ss := by
      apply List.filter_eq_self.mpr
      intro p hp
      simpa using h p hp
    rw [hf]
  · simp only [deleteSession, mapDelete]
    have hf : (ss.filter (fun p => p.1 != i)).filter (fun p => p.1 != i) =
        ss.filter (fun p => p.1 != i) := by
      rw [List.filter_filter]
      apply List.filter_congr
      intro p _
      exact Bool.and_self _
    rw [hf]

/-- C8 witness: deleting the absent id on a concrete one-entry registry is
a no-op, and deleting it twice equals deleting it once. -/
theorem c8_witness :
    deleteSession "absent" stOneSession = stOneSession ∧
    deleteSession "absent" (deleteSession "absent" stOneSession) =
      deleteSession "absent" stOneSession :=
  ⟨(c8_deleteSession_idempotent "absent" stOneSession).1 (by decide),
   (c8_deleteSession_idempotent "absent" stOneSession).2⟩

/-- C9: every query-graphql invocation, on every path (schema-not-ready
failure, upstream success, upstream failure, and the manual branch of entry
point 2), returns the server state unchanged; dispatching the query tool
never changes the Schema Cache or the Session Registry, so among the two
registered tools only introspect-schema can write the cache. -/
theorem c9_query_frame (up : Except String Json) (q : String) (v : Option JsonObj)
    (rpcId : Json) (st : ServerState) :
    (queryGraphql up q v st).2.1 = st ∧
    (manualQueryGraphql up q v rpcId st).2.1 = st ∧
    (dispatchTool (ToolCall.query q v) up st).2.cachedSchema = st.cachedSchema ∧
    (dispatchTool (ToolCall.query q v) up st).2.sessions = st.sessions := by
  obtain ⟨cache, ss, c⟩ := st
  cases cache <;> cases up <;> exact ⟨rfl, rfl, rfl, rfl⟩

/-- C10: identifier generation is deterministic in creation order: starting
from the process-start counter value 0, the identifier at position k
(0-based) of the generated sequence is the string session- followed by the
decimal numeral of k+1. -/
theorem c10_kth_session_id (n k : Nat) (h : k < n) :
    (genIds 0 n)[k]? = some ("session-" ++ natToDec (k + 1)) := by
  rw [genIds_closed n 0, List.getElem?_map, List.getElem?_range h]
  simp [sessionIdOf]

/-- C10 witness: the third identifier generated in a process is session-3. -/
theorem c10_witness : 2 < 3 ∧ (genIds 0 3)[2]? = some ("session-" ++ natToDec (2 + 1)) :=
  ⟨by decide, c10_kth_session_id 3 2 (by decide)⟩
